import Mathlib

/-!
Verification development for the vinyl-collection front end.

The JavaScript sources (js/api.js, js/ui.js, js/main.js) are shallowly
embedded below.  DOM-producing code is modelled as functions from the
relevant data to the HTML strings it writes; event handlers become pure
functions from the data they read (parsed form fields, fetch outcomes) to a
value describing the writes and network calls they perform; asynchronous
fetches become explicit `Except` arguments.  JavaScript specifics that the
code relies on are modelled explicitly: string falsiness (only the empty
string is falsy), number falsiness (`NaN` and `0`), `Map` insertion
semantics, `textContent`/`innerHTML` escaping, `encodeURIComponent`.
-/

/-- One catalog entry, as served by the backend (fields of the JSON
objects consumed by the front end).  `selo` and `capa` are nullable. -/
structure Vinil where
  id : Int
  artista : String
  album : String
  cor_prensagem : String
  ano : Int
  midia : String
  selo : Option String
  capa : Option String
deriving DecidableEq, Repr, Inhabited, BEq

/-- Concatenation of the strings produced for each character. -/
def concatMapChars (f : Char → String) : List Char → String
  | [] => ""
  | c :: cs => f c ++ concatMapChars f cs

/-- Bool test that `needle` is a prefix of the second list. -/
def listPrefixB : List Char → List Char → Bool
  | [], _ => true
  | _ :: _, [] => false
  | a :: as, b :: bs => a == b && listPrefixB as bs

/-- Bool test that `needle` occurs inside the second list. -/
def containsSub (needle : List Char) : List Char → Bool
  | [] => needle.isEmpty
  | c :: cs => listPrefixB needle (c :: cs) || containsSub needle cs

/-- Model of the JavaScript `String.prototype.includes`. -/
def strIncludes (s sub : String) : Bool := containsSub sub.data s.data

/-- Model of the JavaScript `String.prototype.startsWith`. -/
def jsStartsWith (s p : String) : Bool := listPrefixB p.data s.data

/-- Model of the JavaScript `String.prototype.trim`: strip leading and
trailing whitespace. -/
def jsTrim (s : String) : String :=
  String.mk (((s.data.dropWhile Char.isWhitespace).reverse.dropWhile
    Char.isWhitespace).reverse)

/-- JavaScript string truthiness: only the empty string is falsy.
`x || d` on strings. -/
def jsOrStr (s d : String) : String := if s = "" then d else s

/-- `x || d` where `x` is a nullable string (`null` and `""` are falsy). -/
def jsOrOpt (o : Option String) (d : String) : String :=
  match o with
  | none => d
  | some s => if s = "" then d else s

namespace Ui

/-- js/ui.js `escapeHTML`, character by character.  The function assigns
the text to `div.textContent` and reads back `div.innerHTML`; HTML
serialization of a text node escapes the ampersand and both angle
brackets and leaves every other character alone. -/
def escapeChar (c : Char) : String :=
  if c = '&' then "&amp;"
  else if c = '<' then "&lt;"
  else if c = '>' then "&gt;"
  else String.singleton c

/-- js/ui.js `escapeHTML`: falsy (empty) input returns the empty string,
otherwise the text-node serialization of the input. -/
def escapeHTML (text : String) : String :=
  if text = "" then "" else concatMapChars escapeChar text.data

/-- The background used for the `Colorido` pressing color. -/
def gradientColorido : String := "linear-gradient(135deg, #e91e63, #9c27b0)"

/-- js/ui.js `corMap` lookup (shared by card and details rendering). -/
def corMap (cor : String) : Option String :=
  if cor = "Preto" then some "#1a1a1a"
  else if cor = "Colorido" then some gradientColorido
  else if cor = "Transparente" then some "#2196f3"
  else if cor = "Roxo" then some "#9c27b0"
  else none

/-- Upper-case hexadecimal digit. -/
def hexDigit (n : Nat) : Char := if n < 10 then Char.ofNat (48 + n) else Char.ofNat (55 + n)

/-- Percent-encoding of one byte. -/
def pctByte (b : Nat) : String :=
  "%" ++ String.singleton (hexDigit (b / 16)) ++ String.singleton (hexDigit (b % 16))

/-- UTF-8 bytes of a code point. -/
def utf8Bytes (c : Char) : List Nat :=
  let n := c.toNat
  if n < 128 then [n]
  else if n < 2048 then [192 + n / 64, 128 + n % 64]
  else if n < 65536 then [224 + n / 4096, 128 + (n / 64) % 64, 128 + n % 64]
  else [240 + n / 262144, 128 + (n / 4096) % 64, 128 + (n / 64) % 64, 128 + n % 64]

/-- Characters `encodeURIComponent` leaves unencoded. -/
def uriUnreserved (c : Char) : Bool :=
  c.isAlpha || c.isDigit || c == '-' || c == '_' || c == '.' || c == '!' ||
    c == '~' || c == '*' || c == Char.ofNat 39 || c == '(' || c == ')'

/-- Model of the JavaScript `encodeURIComponent`. -/
def encodeURIComponent (s : String) : String :=
  concatMapChars
    (fun c => if uriUnreserved c then String.singleton c else String.join ((utf8Bytes c).map pctByte))
    s.data

/-- `s.substring(0, n)`. -/
def jsSubstringTo (s : String) (n : Nat) : String := String.mk (s.data.take n)

/-- `s.replace(' ', '-')`: JavaScript `replace` with a string pattern
replaces only the first occurrence (space is code point 32, hyphen 45). -/
def replaceFirstSpaceChars : List Char → List Char
  | [] => []
  | c :: cs =>
      if c = Char.ofNat 32 then Char.ofNat 45 :: cs else c :: replaceFirstSpaceChars cs

/-- `vinil.cor_prensagem.toLowerCase().replace(' ', '-')`. -/
def corBadgeClass (cor : String) : String :=
  String.mk (replaceFirstSpaceChars (cor.data.map Char.toLower))

/-- The `linearGradient` defs chunk shared by both inline SVG placeholders. -/
def svgGradientDefs : String :=
  "%3ClinearGradient id=\x27grad\x27 x1=\x270%25\x27 y1=\x270%25\x27 x2=\x27100%25\x27 y2=\x27100%25\x27%3E%3Cstop offset=\x270%25\x27 style=\x27stop-color:%23e91e63\x27/%3E%3Cstop offset=\x27100%25\x27 style=\x27stop-color:%239c27b0\x27/%3E%3C/linearGradient%3E"

/-- The 400x400 inline SVG data URL built in `createVinilCard` when the
record has no cover image. -/
def svgPlaceholder400 (isGradient : Bool) (bgStyle : String) (album : String) : String :=
  "data:image/svg+xml,%3Csvg width=\x27400\x27 height=\x27400\x27 xmlns=\x27http://www.w3.org/2000/svg\x27%3E%3Cdefs%3E"
    ++ (if isGradient then svgGradientDefs else "")
    ++ "%3C/defs%3E%3Crect width=\x27400\x27 height=\x27400\x27 fill=\x27"
    ++ (if isGradient then "url(%23grad)" else bgStyle)
    ++ "\x27/%3E%3Ccircle cx=\x27200\x27 cy=\x27200\x27 r=\x27150\x27 fill=\x27none\x27 stroke=\x27rgba(255,255,255,0.1)\x27 stroke-width=\x272\x27/%3E%3Ccircle cx=\x27200\x27 cy=\x27200\x27 r=\x27100\x27 fill=\x27none\x27 stroke=\x27rgba(255,255,255,0.1)\x27 stroke-width=\x272\x27/%3E%3Ccircle cx=\x27200\x27 cy=\x27200\x27 r=\x2720\x27 fill=\x27rgba(255,255,255,0.2)\x27/%3E%3Ctext x=\x27200\x27 y=\x27220\x27 font-family=\x27Arial\x27 font-size=\x2716\x27 fill=\x27rgba(255,255,255,0.6)\x27 text-anchor=\x27middle\x27%3E"
    ++ encodeURIComponent (jsSubstringTo album 15)
    ++ "%3C/text%3E%3C/svg%3E"

/-- The 600x600 inline SVG data URL built in `createVinilDetailsHTML`. -/
def svgPlaceholder600 (isGradient : Bool) (bgStyle : String) (album : String) : String :=
  "data:image/svg+xml,%3Csvg width=\x27600\x27 height=\x27600\x27 xmlns=\x27http://www.w3.org/2000/svg\x27%3E%3Cdefs%3E"
    ++ (if isGradient then svgGradientDefs else "")
    ++ "%3C/defs%3E%3Crect width=\x27600\x27 height=\x27600\x27 fill=\x27"
    ++ (if isGradient then "url(%23grad)" else bgStyle)
    ++ "\x27/%3E%3Ccircle cx=\x27300\x27 cy=\x27300\x27 r=\x27220\x27 fill=\x27none\x27 stroke=\x27rgba(255,255,255,0.1)\x27 stroke-width=\x273\x27/%3E%3Ccircle cx=\x27300\x27 cy=\x27300\x27 r=\x27150\x27 fill=\x27none\x27 stroke=\x27rgba(255,255,255,0.1)\x27 stroke-width=\x272\x27/%3E%3Ccircle cx=\x27300\x27 cy=\x27300\x27 r=\x2730\x27 fill=\x27rgba(255,255,255,0.2)\x27/%3E%3Ctext x=\x27300\x27 y=\x27320\x27 font-family=\x27Arial\x27 font-size=\x2720\x27 fill=\x27rgba(255,255,255,0.7)\x27 text-anchor=\x27middle\x27%3E"
    ++ encodeURIComponent (jsSubstringTo album 20)
    ++ "%3C/text%3E%3C/svg%3E"

/-- js/ui.js `createVinilCard`: the innerHTML assigned to the card element.
The interpolations are kept exactly as in the template literal: `imgUrl`,
the `alt` attribute (raw `vinil.album`), the badge class and the year are
interpolated without escaping; the color text, title, artist and label go
through `escapeHTML`. -/
def createVinilCardHTML (vinil : Vinil) : String :=
  let bgStyle := (corMap vinil.cor_prensagem).getD "#333333"
  let isGradient := strIncludes bgStyle "gradient"
  let imgUrl :=
    match vinil.capa with
    | some capa =>
        if jsStartsWith capa "/uploads" then "http://localhost:5000" ++ capa else capa
    | none => svgPlaceholder400 isGradient bgStyle vinil.album
  let corClass := corBadgeClass vinil.cor_prensagem
  ("\n        <div class=\"vinil-card-image-wrapper\">\n            <img src=\"" ++ imgUrl
    ++ "\" alt=\"")
    ++ vinil.album ++
  ("\" class=\"vinil-card-image\">\n            <div class=\"vinil-card-badges\">\n                <span class=\"badge badge-"
    ++ corClass
    ++ "\">" ++ escapeHTML vinil.cor_prensagem
    ++ "</span>\n                "
    ++ (if vinil.midia = "LP" then "<span class=\"badge badge-lp\">LP</span>" else "")
    ++ "\n            </div>\n        </div>\n        <div class=\"vinil-card-content\">\n            <h3 class=\"vinil-card-title\">"
    ++ escapeHTML vinil.album
    ++ "</h3>\n            <p class=\"vinil-card-artist\">"
    ++ escapeHTML vinil.artista
    ++ "</p>\n            <div class=\"vinil-card-details\">\n                <div class=\"vinil-detail-item\">📅 "
    ++ toString vinil.ano
    ++ "</div>\n                <div class=\"vinil-detail-item\">💿 "
    ++ escapeHTML (jsOrOpt vinil.selo "N/A")
    ++ "</div>\n            </div>\n        </div>\n    ")

/-- js/ui.js `raridadeMap` lookup. -/
def raridadeMap (cor : String) : Option Nat :=
  if cor = "Preto" then some 1
  else if cor = "Transparente" then some 2
  else if cor = "Roxo" then some 3
  else if cor = "Colorido" then some 4
  else none

/-- `s.repeat(n)`. -/
def strRepeat (s : String) (n : Nat) : String := String.join (List.replicate n s)

/-- js/ui.js `createVinilDetailsHTML`: the detail-panel HTML string.  As in
the source, the detail panel always uses the SVG placeholder (it ignores
`capa`), interpolates `vinil.album` raw into the `alt` attribute and
`vinil.ano` raw, and escapes the remaining text fields. -/
def createVinilDetailsHTML (vinil : Vinil) : String :=
  let bgStyle := (corMap vinil.cor_prensagem).getD "#333333"
  let isGradient := strIncludes bgStyle "gradient"
  let svgPlaceholder := svgPlaceholder600 isGradient bgStyle vinil.album
  let nivelRaridade := (raridadeMap vinil.cor_prensagem).getD 1
  let estrelas := strRepeat "⭐" (min nivelRaridade 5)
  ("\n        <div class=\"detalhes-vinil\">\n            <div class=\"detalhes-vinil-header\">\n                <h2 class=\"detalhes-vinil-title\">"
    ++ escapeHTML vinil.album
    ++ "</h2>\n            </div>\n            <div class=\"detalhes-vinil-content\">\n                <div class=\"detalhes-vinil-image-wrapper\">\n                    <img src=\""
    ++ svgPlaceholder
    ++ "\" alt=\"")
    ++ vinil.album ++
  ("\" class=\"detalhes-vinil-image\">\n                </div>\n                <div class=\"detalhes-vinil-info\">\n                    <div class=\"detalhes-vinil-artist-section\">\n                        <h3 class=\"detalhes-vinil-artist\">"
    ++ escapeHTML vinil.artista
    ++ "</h3>\n                        <p class=\"detalhes-vinil-subtitle\">"
    ++ escapeHTML vinil.album ++ " (" ++ toString vinil.ano
    ++ ")</p>\n                    </div>\n                    \n                    <div class=\"detalhes-vinil-meta-grid\">\n                        <div class=\"detalhes-meta-item\">\n                            <span class=\"detalhes-meta-icon\">💿</span>\n                            <div class=\"detalhes-meta-text\">\n                                <span class=\"detalhes-meta-label\">Cor</span>\n                                <span class=\"detalhes-meta-value\">"
    ++ escapeHTML (jsOrStr vinil.cor_prensagem "N/A")
    ++ "</span>\n                            </div>\n                        </div>\n                        \n                        <div class=\"detalhes-meta-item\">\n                            <span class=\"detalhes-meta-icon\">📅</span>\n                            <div class=\"detalhes-meta-text\">\n                                <span class=\"detalhes-meta-label\">Ano</span>\n                                <span class=\"detalhes-meta-value\">"
    ++ toString vinil.ano
    ++ "</span>\n                            </div>\n                        </div>\n                        \n                        <div class=\"detalhes-meta-item\">\n                            <span class=\"detalhes-meta-icon\">🏢</span>\n                            <div class=\"detalhes-meta-text\">\n                                <span class=\"detalhes-meta-label\">Selo</span>\n                                <span class=\"detalhes-meta-value\">"
    ++ escapeHTML (jsOrOpt vinil.selo "N/A")
    ++ "</span>\n                            </div>\n                        </div>\n                        \n                        <div class=\"detalhes-meta-item\">\n                            <span class=\"detalhes-meta-icon\">💽</span>\n                            <div class=\"detalhes-meta-text\">\n                                <span class=\"detalhes-meta-label\">Mídia</span>\n                                <span class=\"detalhes-meta-value\">"
    ++ escapeHTML (jsOrStr vinil.midia "LP")
    ++ "</span>\n                            </div>\n                        </div>\n                        \n                        <div class=\"detalhes-meta-item\">\n                            <span class=\"detalhes-meta-icon\">🎀</span>\n                            <div class=\"detalhes-meta-text\">\n                                <span class=\"detalhes-meta-label\">Raridade</span>\n                                <span class=\"detalhes-meta-value\">"
    ++ estrelas
    ++ "</span>\n                            </div>\n                        </div>\n                    </div>\n                    \n                    <button class=\"btn-rare-item\">\n                        <span>⭐</span> Item Raro na Coleção\n                    </button>\n                </div>\n            </div>\n            \n            <div class=\"detalhes-vinil-tracklist\">\n                <h4 class=\"tracklist-title\">🎵 Tracklist</h4>\n                <div class=\"tracklist-grid\">\n                    <div class=\"tracklist-item\"><span class=\"track-number\">01</span> Speak to Me</div>\n                    <div class=\"tracklist-item\"><span class=\"track-number\">02</span> Breathe</div>\n                    <div class=\"tracklist-item\"><span class=\"track-number\">03</span> On the Run</div>\n                    <div class=\"tracklist-item\"><span class=\"track-number\">04</span> Time</div>\n                    <div class=\"tracklist-item\"><span class=\"track-number\">05</span> The Great Gig in the Sky</div>\n                    <div class=\"tracklist-item\"><span class=\"track-number\">06</span> Money</div>\n                    <div class=\"tracklist-item\"><span class=\"track-number\">07</span> Us and Them</div>\n                    <div class=\"tracklist-item\"><span class=\"track-number\">08</span> Any Colour You Like</div>\n                </div>\n            </div>\n        </div>\n    ")

/-- The four mini-stat `textContent` values at the top of the page. -/
structure MiniStatsView where
  totalVinis : String
  totalRaridades : String
  totalArtistas : String
  anoMaisAntigo : String
deriving DecidableEq, Repr

/-- Minimum of a list of numbers, `Math.min(...anos)` over a nonempty list. -/
def minListInt : List Int → Option Int
  | [] => none
  | a :: as =>
      match minListInt as with
      | none => some a
      | some m => some (min a m)

/-- js/ui.js `updateMiniStats`: untouched on an empty list, otherwise the
four counters are recomputed (rarities are records whose non-empty color
contains `Colorido` or `Transparente`; artists are counted as a set; the
oldest year ignores falsy years). -/
def updateMiniStats (vinis : List Vinil) (m : MiniStatsView) : MiniStatsView :=
  if vinis.length = 0 then m
  else
    let raridades := (vinis.filter (fun v =>
      !(v.cor_prensagem == "") &&
        (strIncludes v.cor_prensagem "Colorido" || strIncludes v.cor_prensagem "Transparente"))).length
    let artistas := (vinis.map (fun v => v.artista)).dedup.length
    let anos := (vinis.map (fun v => v.ano)).filter (fun a => a != 0)
    let maisAntigo :=
      match minListInt anos with
      | some mn => toString mn
      | none => "----"
    { totalVinis := toString vinis.length, totalRaridades := toString raridades,
      totalArtistas := toString artistas, anoMaisAntigo := maisAntigo }

/-- The DOM state touched by the grid renderer: the loading spinner, the
no-results element, the grid children (one innerHTML string per card), the
mini stats, and the (untouched) current notification. -/
structure GridView where
  loadingShown : Bool
  noResultsShown : Bool
  cards : List String
  miniStats : MiniStatsView
  notification : Option String
deriving DecidableEq, Repr

/-- js/ui.js `renderVinisGrid`: hides the loading element, clears the
grid, shows the no-results element and returns when the input is absent or
empty, otherwise hides no-results, appends one card per record and updates
the mini stats.  It never writes a notification. -/
def renderVinisGrid (vinis : Option (List Vinil)) (g : GridView) : GridView :=
  let g1 : GridView := { g with loadingShown := false, cards := [] }
  match vinis with
  | none => { g1 with noResultsShown := true }
  | some l =>
      if l.length = 0 then { g1 with noResultsShown := true }
      else
        let g2 : GridView :=
          { g1 with noResultsShown := false, cards := l.map createVinilCardHTML }
        { g2 with miniStats := updateMiniStats l g2.miniStats }

/-- One entry of the per-color aggregate in a stats response. -/
structure CorStat where
  cor_prensagem : String
  quantidade : Int
deriving DecidableEq, Repr

/-- One entry of the per-artist aggregate in a stats response. -/
structure ArtistaStat where
  artista : String
  quantidade : Int
deriving DecidableEq, Repr

/-- A stats response; `none` models an absent (undefined) key. -/
structure Stats where
  total_vinis : Option Int
  por_cor : Option (List CorStat)
  por_artista : Option (List ArtistaStat)
deriving DecidableEq, Repr

/-- One character of a JSON string literal, as `JSON.stringify` escapes it. -/
def jsonEscChar (c : Char) : String :=
  if c = '"' then "\\\""
  else if c = '\\' then "\\\\"
  else if c = Char.ofNat 10 then "\\n"
  else if c = Char.ofNat 13 then "\\r"
  else if c = Char.ofNat 9 then "\\t"
  else if c.toNat < 32 then
    "\\u00" ++ String.singleton (hexDigit (c.toNat / 16)) ++ String.singleton (hexDigit (c.toNat % 16))
  else String.singleton c

/-- A JSON string literal. -/
def jsonQuote (s : String) : String := "\"" ++ concatMapChars jsonEscChar s.data ++ "\""

/-- `JSON.stringify` of one per-color entry, at nesting depth two of the
two-space-indented dump. -/
def corStatJson (c : CorStat) : String :=
  "\x7b\n      \"cor_prensagem\": " ++ jsonQuote c.cor_prensagem
    ++ ",\n      \"quantidade\": " ++ toString c.quantidade ++ "\n    \x7d"

/-- `JSON.stringify` of one per-artist entry at nesting depth two. -/
def artistaStatJson (a : ArtistaStat) : String :=
  "\x7b\n      \"artista\": " ++ jsonQuote a.artista
    ++ ",\n      \"quantidade\": " ++ toString a.quantidade ++ "\n    \x7d"

/-- A two-space-indented JSON array of already-rendered elements. -/
def jsonArrayDump (elems : List String) : String :=
  if elems.isEmpty then "[]"
  else "[\n    " ++ String.intercalate ",\n    " elems ++ "\n  ]"

/-- `JSON.stringify(stats, null, 2)`: keys in insertion order, keys whose
value is undefined omitted. -/
def jsonStringifyStats (s : Stats) : String :=
  let fields :=
    (match s.total_vinis with
     | some t => ["\"total_vinis\": " ++ toString t]
     | none => []) ++
    (match s.por_cor with
     | some cs => ["\"por_cor\": " ++ jsonArrayDump (cs.map corStatJson)]
     | none => []) ++
    (match s.por_artista with
     | some as => ["\"por_artista\": " ++ jsonArrayDump (as.map artistaStatJson)]
     | none => [])
  if fields.isEmpty then "\x7b\x7d"
  else "\x7b\n  " ++ String.intercalate ",\n  " fields ++ "\n\x7d"

/-- js/ui.js `renderStats`: the HTML written into `stats-container`. -/
def renderStatsHTML (stats : Stats) : String :=
  let html0 := "<div class=\"stats-grid\">"
  let html1 := html0 ++
    (match stats.total_vinis with
     | some t =>
         "\n            <div class=\"stat-card\">\n                <h4>Total de Vinis</h4>\n                <div class=\"stat-value\">"
           ++ toString t ++ "</div>\n            </div>\n        "
     | none => "")
  let html2 := html1 ++
    (match stats.por_cor with
     | some cs =>
         String.join (cs.map (fun item =>
           "\n                <div class=\"stat-card\">\n                    <h4>"
             ++ escapeHTML item.cor_prensagem
             ++ "</h4>\n                    <div class=\"stat-value\">"
             ++ toString item.quantidade ++ "</div>\n                </div>\n            "))
     | none => "")
  let html3 := html2 ++ "</div>"
  let html4 := html3 ++
    (match stats.por_artista with
     | some as =>
         if as.length > 0 then
           "<h3 style=\"margin-top: 2rem; margin-bottom: 1rem;\">Por Artista</h3>"
             ++ "<div class=\"stats-grid\">"
             ++ String.join ((as.take 6).map (fun item =>
                  "\n                <div class=\"stat-card\">\n                    <h4>"
                    ++ escapeHTML item.artista
                    ++ "</h4>\n                    <div class=\"stat-value\">"
                    ++ toString item.quantidade ++ "</div>\n                </div>\n            "))
             ++ "</div>"
         else ""
     | none => "")
  html4
    ++ "\n        <div class=\"stats-raw\">\n            <h3>Dados completos:</h3>\n            <pre>"
    ++ jsonStringifyStats stats
    ++ "</pre>\n        </div>\n    "

/-- The DOM state touched by the stats flow: the `stats-container`
innerHTML and the current notification (`showNotification` replaces any
existing notification element). -/
structure StatsView where
  content : String
  notification : Option String
deriving DecidableEq, Repr

/-- The placeholder js/ui.js `showStatsLoading` writes into the panel. -/
def statsLoadingHTML : String := "<div class=\"stats-loading\">Carregando estatísticas...</div>"

/-- js/ui.js `showStatsLoading`. -/
def showStatsLoading (v : StatsView) : StatsView := { v with content := statsLoadingHTML }

/-- js/ui.js `showError` (via `showNotification`, which removes the
previous notification and shows the new one). -/
def showError (message : String) (v : StatsView) : StatsView :=
  { v with notification := some message }

end Ui

namespace Api

/-- A JSON value, the shape `response.json()` produces. -/
inductive JsValue where
  | null : JsValue
  | bool (b : Bool) : JsValue
  | num (n : Int) : JsValue
  | str (s : String) : JsValue
  | arr (elems : List JsValue) : JsValue
  | obj (fields : List (String × JsValue)) : JsValue

/-- Property lookup on a JSON object. -/
def lookupField : List (String × JsValue) → String → Option JsValue
  | [], _ => none
  | (k, v) :: fs, key => if k = key then some v else lookupField fs key

/-- `errorData.message` where `errorData` is the parsed error body or `{}`
when the body failed to parse (`.catch(() => ({}))`). -/
def messageOf (body : Option JsValue) : Option String :=
  match body with
  | some (JsValue.obj fs) =>
      match lookupField fs "message" with
      | some (JsValue.str s) => some s
      | _ => none
  | _ => none

/-- `errorData.message || fallback` (absent or empty message is falsy). -/
def jsOrMsg (m : Option String) (fallback : String) : String :=
  match m with
  | some s => if s = "" then fallback else s
  | none => fallback

/-- The two ways a `fetch` can come back: the transport rejects with an
error message, or the remote responds with a status and a body (`none`
models a body that is not valid JSON). -/
inductive FetchOutcome where
  | networkFailure (msg : String) : FetchOutcome
  | responded (status : Nat) (body : Option JsValue) : FetchOutcome

/-- js/api.js `fetchAPI`: resolves with the parsed JSON body, normalizes a
204 to `{}`, and rejects with a single error kind (an `Error` carrying a
message) on transport failure or a non-2xx status (`response.ok` is
`200 <= status < 300`).  On a 2xx with an unparsable body the
`response.json()` rejection propagates. -/
def fetchAPI : FetchOutcome → Except String JsValue
  | FetchOutcome.networkFailure msg => Except.error msg
  | FetchOutcome.responded status body =>
      if 200 ≤ status ∧ status < 300 then
        if status = 204 then Except.ok (JsValue.obj [])
        else
          match body with
          | some j => Except.ok j
          | none => Except.error "Unexpected end of JSON input"
      else Except.error (jsOrMsg (messageOf body) ("Erro HTTP: " ++ toString status))

/-- Whether a gateway call rejected. -/
def isErrorE (r : Except String JsValue) : Bool :=
  match r with
  | Except.error _ => true
  | Except.ok _ => false

/-- `.catch(() => [])` applied to one search sub-query. -/
def jsCatchEmpty (r : Except String (List Vinil)) : List Vinil :=
  match r with
  | Except.ok l => l
  | Except.error _ => []

/-- One `set` step of `new Map(pairs)`: an existing key has its value
updated in place (keeping its position), a new key is appended. -/
def insertPair (acc : List (Int × Vinil)) (k : Int) (v : Vinil) : List (Int × Vinil) :=
  if acc.any (fun q => q.1 == k) then
    acc.map (fun q => if q.1 == k then (q.1, v) else q)
  else acc ++ [(k, v)]

/-- `new Map(l.map(v => [v.id, v]))` as its ordered entry list. -/
def jsMapOfList (l : List Vinil) : List (Int × Vinil) :=
  l.foldl (fun acc v => insertPair acc v.id v) []

/-- js/api.js `vinisUnicos`: `Array.from(new Map(l.map(v => [v.id, v])).values())`. -/
def vinisUnicos (l : List Vinil) : List Vinil := (jsMapOfList l).map Prod.snd

/-- js/api.js `buscarVinis`, with the two already-settled sub-queries as
arguments: each failed sub-query degrades to `[]`, the two result arrays
are concatenated (artist first) and deduplicated through the `Map`. -/
def buscarVinis (resultadosArtista resultadosAlbum : Except String (List Vinil)) : List Vinil :=
  vinisUnicos (jsCatchEmpty resultadosArtista ++ jsCatchEmpty resultadosAlbum)

/-- The per-field boolean difference map of js/api.js `compararPrensagens`. -/
structure Diferencas where
  artista : Bool
  album : Bool
  cor_prensagem : Bool
  ano : Bool
  selo : Bool
  midia : Bool
deriving DecidableEq, Repr

/-- The `diferencas` object literal: each flag is the strict inequality of
the corresponding fields of the two fetched records. -/
def diferencas (vinilA vinilB : Vinil) : Diferencas :=
  { artista := decide (vinilA.artista ≠ vinilB.artista),
    album := decide (vinilA.album ≠ vinilB.album),
    cor_prensagem := decide (vinilA.cor_prensagem ≠ vinilB.cor_prensagem),
    ano := decide (vinilA.ano ≠ vinilB.ano),
    selo := decide (vinilA.selo ≠ vinilB.selo),
    midia := decide (vinilA.midia ≠ vinilB.midia) }

/-- The value js/api.js `compararPrensagens` resolves with, given the two
fetched records. -/
structure ComparacaoResultado where
  vinil_a : Vinil
  vinil_b : Vinil
  diferencas : Diferencas
deriving DecidableEq, Repr

/-- js/api.js `compararPrensagens` after both `getVinilById` calls resolved. -/
def compararPrensagens (vinilA vinilB : Vinil) : ComparacaoResultado :=
  { vinil_a := vinilA, vinil_b := vinilB, diferencas := diferencas vinilA vinilB }

end Api

namespace MainJs

/-- JavaScript number truthiness of a `parseInt` result: `NaN` (modelled
as `none`) and `0` are falsy. -/
def jsTruthyNum : Option Int → Bool
  | none => false
  | some n => n != 0

/-- `x < m` on a `parseInt` result: any comparison with `NaN` is false. -/
def jsLtNum (o : Option Int) (m : Int) : Bool :=
  match o with
  | none => false
  | some n => n < m

/-- `x > m` on a `parseInt` result: any comparison with `NaN` is false. -/
def jsGtNum (o : Option Int) (m : Int) : Bool :=
  match o with
  | none => false
  | some n => m < n

/-- The raw form fields `handleFormSubmit` reads from the document (`ano`
is already the `parseInt` of the year input, `none` for `NaN`). -/
structure FormFields where
  artista : String
  album : String
  cor : String
  ano : Option Int
  midia : String
  selo : String
deriving DecidableEq, Repr

/-- The `vinilData` payload assembled by `handleFormSubmit`. -/
structure VinilData where
  artista : String
  album : String
  cor_prensagem : String
  ano : Option Int
  midia : String
  selo : Option String
  capa : Option String
deriving DecidableEq, Repr

/-- The object literal plus the conditional `capa` assignment. -/
def collectVinilData (f : FormFields) (imageData : Option String) : VinilData :=
  { artista := jsTrim f.artista,
    album := jsTrim f.album,
    cor_prensagem := f.cor,
    ano := f.ano,
    midia := f.midia,
    selo := if jsTrim f.selo = "" then none else some (jsTrim f.selo),
    capa := imageData }

/-- What a form submission does: reject with a user-visible message and no
network call, or issue the create (POST) or update (PUT) call with the
collected payload. -/
inductive SubmitOutcome where
  | rejected (msg : String) : SubmitOutcome
  | createCall (dados : VinilData) : SubmitOutcome
  | updateCall (editId : String) (dados : VinilData) : SubmitOutcome
deriving DecidableEq, Repr

/-- Whether the submission was rejected client-side. -/
def isRejected : SubmitOutcome → Bool
  | SubmitOutcome.rejected _ => true
  | _ => false

/-- js/main.js `handleFormSubmit`: collects the form data, rejects when a
required field is falsy, rejects when the year is below 1900 or above
2025, and otherwise issues the PUT (edit mode) or POST call. -/
def handleFormSubmit (editId : Option String) (f : FormFields) (imageData : Option String) :
    SubmitOutcome :=
  let vinilData := collectVinilData f imageData
  if vinilData.artista == "" || vinilData.album == "" || vinilData.cor_prensagem == "" ||
      !(jsTruthyNum vinilData.ano) || vinilData.midia == "" then
    SubmitOutcome.rejected "Por favor, preencha todos os campos obrigatórios."
  else if jsLtNum vinilData.ano 1900 || jsGtNum vinilData.ano 2025 then
    SubmitOutcome.rejected "Ano deve estar entre 1900 e 2025."
  else
    match editId with
    | some i => SubmitOutcome.updateCall i vinilData
    | none => SubmitOutcome.createCall vinilData

/-- What the comparison handler does: reject with a message, or fetch the
two records. -/
inductive CompareOutcome where
  | rejected (msg : String) : CompareOutcome
  | fetchBoth (idA idB : Int) : CompareOutcome
deriving DecidableEq, Repr

/-- Whether the comparison was rejected before any network call. -/
def isRejectedCompare : CompareOutcome → Bool
  | CompareOutcome.rejected _ => true
  | _ => false

/-- js/main.js `compararPrensagens`: the two inputs are `parseInt` results
(`none` for `NaN`).  Falsy ids (`NaN` or `0`) are rejected, equal ids are
rejected, and only then are the two `getVinilById` fetches issued. -/
def compararPrensagens (idA idB : Option Int) : CompareOutcome :=
  if !(jsTruthyNum idA) || !(jsTruthyNum idB) then
    CompareOutcome.rejected "Por favor, preencha ambos os IDs."
  else if idA = idB then
    CompareOutcome.rejected "Os IDs devem ser diferentes."
  else CompareOutcome.fetchBoth (idA.getD 0) (idB.getD 0)

/-- js/main.js `loadStats`: writes the loading placeholder into the stats
panel, then on a successful fetch renders the stats into it, and on a
failed fetch shows an error notification (the panel keeps whatever
`showStatsLoading` wrote). -/
def loadStats (fetched : Except String Ui.Stats) (v : Ui.StatsView) : Ui.StatsView :=
  let v1 := Ui.showStatsLoading v
  match fetched with
  | Except.ok stats => { v1 with content := Ui.renderStatsHTML stats }
  | Except.error _ => Ui.showError "Não foi possível carregar as estatísticas." v1

end MainJs

namespace DedupSpec

/-- Reference definition, following the amended wording of the dedup
behavior: the identifiers in order of first occurrence. -/
def firstKeys (xs : List Int) : List Int :=
  xs.foldl (fun acc k => if k ∈ acc then acc else acc ++ [k]) []

/-- Reference definition: the last record carrying a given identifier. -/
def lastWith (l : List Vinil) (k : Int) : Option Vinil :=
  (l.filter (fun v => v.id == k)).getLast?

/-- Total version of `lastWith` (meaningful when `k` occurs in `l`). -/
def lastWithD (l : List Vinil) (k : Int) : Vinil := (lastWith l k).getD default

/-- Reference deduplication: identifiers ordered by first occurrence, each
mapped to the last record carrying it. -/
def dedupeSpec (l : List Vinil) : List Vinil :=
  (firstKeys (l.map Vinil.id)).map (lastWithD l)

end DedupSpec

/-! ### Concrete instances used by witnesses and counterexamples -/

/-- A record whose title (album) carries markup, with a cover image URL. -/
def c1Vinil : Vinil :=
  { id := 7, artista := "Hacker", album := "\"><script>alert(1)</script>",
    cor_prensagem := "Preto", ano := 2000, midia := "LP", selo := none,
    capa := some "http://img/capa.jpg" }

def c2A : Vinil :=
  { id := 1, artista := "Artista da busca por artista", album := "Album A",
    cor_prensagem := "Preto", ano := 1970, midia := "LP", selo := none, capa := none }

def c2B : Vinil :=
  { id := 1, artista := "Artista da busca por album", album := "Album B",
    cor_prensagem := "Roxo", ano := 1980, midia := "EP", selo := some "X", capa := none }

def c3A : Vinil :=
  { id := 1, artista := "Pink Floyd", album := "Album A",
    cor_prensagem := "Preto", ano := 1973, midia := "LP", selo := none, capa := none }

def c3B : Vinil :=
  { id := 2, artista := "Outro", album := "Pink Moon",
    cor_prensagem := "Roxo", ano := 1972, midia := "LP", selo := none, capa := none }

def c10A : Vinil :=
  { id := 3, artista := "Nick Drake", album := "Pink Moon",
    cor_prensagem := "Preto", ano := 1972, midia := "LP", selo := some "Island", capa := none }

def c10B : Vinil :=
  { id := 4, artista := "Nick Drake", album := "Bryter Layter",
    cor_prensagem := "Roxo", ano := 1972, midia := "LP", selo := none, capa := none }

def g0 : Ui.GridView :=
  { loadingShown := true, noResultsShown := false, cards := ["card"],
    miniStats := { totalVinis := "1", totalRaridades := "0",
                   totalArtistas := "1", anoMaisAntigo := "1970" },
    notification := some "aviso" }

def c4Stats : Ui.Stats :=
  { total_vinis := some 3,
    por_cor := some [{ cor_prensagem := "Preto", quantidade := 2 }],
    por_artista := none }

def c4Prior : Ui.StatsView :=
  { content := Ui.renderStatsHTML c4Stats, notification := none }

def c5FormInvalida : MainJs.FormFields :=
  { artista := "Pink Floyd", album := "The Dark Side of the Moon",
    cor := "Preto", ano := some 1899, midia := "LP", selo := "Harvest" }

def c5FormValida : MainJs.FormFields :=
  { artista := "Pink Floyd", album := "The Dark Side of the Moon",
    cor := "Preto", ano := some 2000, midia := "LP", selo := "Harvest" }

/-! ### Helper lemmas about the dedup machinery -/

namespace DedupSpec

lemma firstKeys_append_singleton (xs : List Int) (k : Int) :
    firstKeys (xs ++ [k]) =
      if k ∈ firstKeys xs then firstKeys xs else firstKeys xs ++ [k] := by
  simp [firstKeys, List.foldl_append]

lemma mem_firstKeys (xs : List Int) : ∀ k, k ∈ firstKeys xs ↔ k ∈ xs := by
  induction xs using List.reverseRecOn with
  | nil => simp [firstKeys]
  | append_singleton xs a ih =>
      intro k
      rw [firstKeys_append_singleton]
      by_cases h : a ∈ firstKeys xs
      · have ha := (ih a).mp h
        simp only [if_pos h, List.mem_append, List.mem_singleton, ih k]
        constructor
        · exact fun hk => Or.inl hk
        · rintro (hk | rfl)
          · exact hk
          · exact ha
      · simp [if_neg h, ih k, List.mem_append]

lemma nodup_firstKeys (xs : List Int) : (firstKeys xs).Nodup := by
  induction xs using List.reverseRecOn with
  | nil => simp [firstKeys]
  | append_singleton xs a ih =>
      rw [firstKeys_append_singleton]
      by_cases h : a ∈ firstKeys xs
      · simpa [h] using ih
      · simp [h, List.nodup_append, ih]

lemma firstKeys_of_nodup (xs : List Int) (h : xs.Nodup) : firstKeys xs = xs := by
  induction xs using List.reverseRecOn with
  | nil => simp [firstKeys]
  | append_singleton xs a ih =>
      rw [List.nodup_append] at h
      rw [firstKeys_append_singleton, ih h.1]
      have : a ∉ xs := by
        intro hmem
        exact (h.2.2 hmem) (List.mem_singleton_self a)
      simp [this]

lemma lastWith_append_singleton (l : List Vinil) (v : Vinil) (k : Int) :
    lastWith (l ++ [v]) k = if v.id = k then some v else lastWith l k := by
  by_cases h : v.id = k
  · simp [lastWith, List.filter_append, h, List.getLast?_concat]
  · simp [lastWith, List.filter_append, h]

lemma lastWith_mem (l : List Vinil) (k : Int) (h : k ∈ l.map Vinil.id) :
    ∃ w, lastWith l k = some w ∧ w ∈ l ∧ w.id = k := by
  obtain ⟨v, hv, hvk⟩ := List.mem_map.mp h
  have hvf : v ∈ l.filter (fun x => x.id == k) :=
    List.mem_filter.mpr ⟨hv, by simp [hvk]⟩
  have hne : l.filter (fun x => x.id == k) ≠ [] := List.ne_nil_of_mem hvf
  have hlast := List.getLast_mem hne
  have hmf := List.mem_filter.mp hlast
  refine ⟨(l.filter (fun x => x.id == k)).getLast hne, ?_, hmf.1, by simpa using hmf.2⟩
  rw [lastWith]
  exact List.getLast?_eq_getLast_of_ne_nil hne

lemma any_map_fst_eq (K : List Int) (f : Int → Vinil) (k0 : Int) :
    ((K.map (fun k => (k, f k))).any (fun q => q.1 == k0)) = decide (k0 ∈ K) := by
  induction K with
  | nil => simp
  | cons a as ih =>
      simp only [List.map_cons, List.any_cons, ih, List.mem_cons]
      by_cases h : k0 = a
      · simp [h]
      · have h2 : a ≠ k0 := fun hh => h hh.symm
        simp [h, h2]

lemma jsMap_step (l : List Vinil) (v : Vinil) :
    Api.jsMapOfList (l ++ [v]) = Api.insertPair (Api.jsMapOfList l) v.id v := by
  simp [Api.jsMapOfList, List.foldl_append]

lemma jsMap_eq_spec (l : List Vinil) :
    Api.jsMapOfList l = (firstKeys (l.map Vinil.id)).map (fun k => (k, lastWithD l k)) := by
  induction l using List.reverseRecOn with
  | nil => simp [Api.jsMapOfList, firstKeys]
  | append_singleton l v ih =>
      rw [jsMap_step, ih, Api.insertPair]
      by_cases hv : v.id ∈ firstKeys (l.map Vinil.id)
      · have hany := any_map_fst_eq (firstKeys (l.map Vinil.id)) (lastWithD l) v.id
        rw [hany]
        have hk : firstKeys ((l ++ [v]).map Vinil.id) = firstKeys (l.map Vinil.id) := by
          rw [List.map_append]
          simp [firstKeys_append_singleton, hv]
        rw [if_pos (by simp [hv]), hk, List.map_map]
        apply List.map_congr_left
        intro k hk2
        by_cases hkv : k = v.id
        · subst hkv
          simp [Function.comp, lastWithD, lastWith_append_singleton]
        · have hne : (k == v.id) = false := by simp [hkv]
          simp [Function.comp, hne, lastWithD, lastWith_append_singleton, Ne.symm hkv]
      · have hany := any_map_fst_eq (firstKeys (l.map Vinil.id)) (lastWithD l) v.id
        rw [hany, if_neg (by simp [hv])]
        have hk : firstKeys ((l ++ [v]).map Vinil.id) =
            firstKeys (l.map Vinil.id) ++ [v.id] := by
          rw [List.map_append]
          simp [firstKeys_append_singleton, hv]
        rw [hk, List.map_append]
        have h1 : (firstKeys (l.map Vinil.id)).map (fun k => (k, lastWithD (l ++ [v]) k)) =
            (firstKeys (l.map Vinil.id)).map (fun k => (k, lastWithD l k)) := by
          apply List.map_congr_left
          intro k hk2
          have : k ≠ v.id := fun he => hv (he ▸ hk2)
          simp [lastWithD, lastWith_append_singleton, Ne.symm this]
        rw [h1]
        simp [lastWithD, lastWith_append_singleton]

lemma vinisUnicos_eq_spec (l : List Vinil) : Api.vinisUnicos l = dedupeSpec l := by
  rw [Api.vinisUnicos, jsMap_eq_spec, List.map_map, dedupeSpec]
  rfl

lemma map_id_dedupeSpec (l : List Vinil) :
    (dedupeSpec l).map Vinil.id = firstKeys (l.map Vinil.id) := by
  rw [dedupeSpec, List.map_map]
  have : ∀ k ∈ firstKeys (l.map Vinil.id), (Vinil.id ∘ lastWithD l) k = id k := by
    intro k hk
    obtain ⟨w, hw, _, hwid⟩ := lastWith_mem l k ((mem_firstKeys _ k).mp hk)
    simp [Function.comp, lastWithD, hw, hwid]
  rw [List.map_congr_left this, List.map_id]

lemma filter_id_eq_nil (l : List Vinil) (k : Int) (h : k ∉ l.map Vinil.id) :
    l.filter (fun v => v.id == k) = [] := by
  rw [List.filter_eq_nil_iff]
  intro v hv
  simp only [beq_iff_eq]
  intro he
  exact h (he ▸ List.mem_map_of_mem Vinil.id hv)

lemma lastWith_of_nodup (l : List Vinil) (h : (l.map Vinil.id).Nodup) (v : Vinil)
    (hv : v ∈ l) : lastWith l v.id = some v := by
  induction l with
  | nil => cases hv
  | cons a as ih =>
      rw [List.map_cons, List.nodup_cons] at h
      rcases List.mem_cons.mp hv with rfl | hmem
      · have hnil : as.filter (fun x => x.id == v.id) = [] :=
          filter_id_eq_nil as v.id h.1
        rw [lastWith]
        simp [List.filter_cons, hnil]
      · have hvid : v.id ∈ as.map Vinil.id := List.mem_map_of_mem Vinil.id hmem
        have hne : a.id ≠ v.id := fun he => h.1 (he ▸ hvid)
        rw [lastWith]
        simp only [List.filter_cons]
        rw [if_neg (by simp [hne])]
        exact ih h.2 hmem

lemma dedupeSpec_of_nodup (l : List Vinil) (h : (l.map Vinil.id).Nodup) :
    dedupeSpec l = l := by
  rw [dedupeSpec, firstKeys_of_nodup _ h, List.map_map]
  have : ∀ v ∈ l, (lastWithD l ∘ Vinil.id) v = id v := by
    intro v hv
    simp [Function.comp, lastWithD, lastWith_of_nodup l h v hv]
  rw [List.map_congr_left this, List.map_id]

end DedupSpec

/-! ### Helper lemmas about escaping and the card templates -/

lemma escapeChar_no_angle (c : Char) :
    ((Ui.escapeChar c).data.all (fun x => !(x == '<') && !(x == '>'))) = true := by
  rw [Ui.escapeChar]
  split_ifs with h1 h2 h3
  · decide
  · decide
  · decide
  · simp [String.singleton, h2, h3]

lemma escapeCore_no_angle (l : List Char) :
    ((concatMapChars Ui.escapeChar l).data.all (fun x => !(x == '<') && !(x == '>'))) = true := by
  induction l with
  | nil => decide
  | cons c cs ih =>
      rw [concatMapChars]
      simp [String.data_append, List.all_append, escapeChar_no_angle c, ih]

lemma escapeHTML_no_angle (s : String) :
    ((Ui.escapeHTML s).data.all (fun x => !(x == '<') && !(x == '>'))) = true := by
  rw [Ui.escapeHTML]
  split_ifs with h
  · decide
  · exact escapeCore_no_angle s.data

lemma mid_decomp (p m s : String) :
    ∃ t u : List Char, (p ++ m ++ s).data = t ++ m.data ++ u :=
  ⟨p.data, s.data, by simp [String.data_append]⟩

lemma card_album_infix (v : Vinil) :
    ∃ t u : List Char, (Ui.createVinilCardHTML v).data = t ++ v.album.data ++ u := by
  unfold Ui.createVinilCardHTML
  exact mid_decomp _ _ _

lemma details_album_infix (v : Vinil) :
    ∃ t u : List Char, (Ui.createVinilDetailsHTML v).data = t ++ v.album.data ++ u := by
  unfold Ui.createVinilDetailsHTML
  exact mid_decomp _ _ _

/-! ### Claim theorems -/

/-- C1, counterexample: the claim says no raw markup characters from any
Record field reach the produced HTML unescaped.  For a record whose album
(title) is the string quote-gt-lt-script-gt, the raw substring
`<script>` occurs verbatim in the card HTML, because `createVinilCard`
interpolates `vinil.album` into the `alt` attribute without escaping. -/
theorem c1_counterexample :
    containsSub "<script>".data (Ui.createVinilCardHTML c1Vinil).data = true := by
  decide

/-- C1, amended: the text fields rendered as element content go through
`escapeHTML`, whose output contains no angle bracket at all; but the album
also appears verbatim (as a contiguous unescaped substring) in both the
card HTML and the detail-panel HTML, inside the `alt` attribute. -/
theorem c1_escaping (s : String) (v : Vinil) :
    ((Ui.escapeHTML s).data.all (fun x => !(x == '<') && !(x == '>'))) = true ∧
    (∃ t u : List Char, (Ui.createVinilCardHTML v).data = t ++ v.album.data ++ u) ∧
    (∃ t u : List Char, (Ui.createVinilDetailsHTML v).data = t ++ v.album.data ++ u) :=
  ⟨escapeHTML_no_angle s, card_album_infix v, details_album_infix v⟩

/-- C1 witness: the amended statement at the counterexample record. -/
theorem c1_escaping_witness :
    ((Ui.escapeHTML "<script>").data.all (fun x => !(x == '<') && !(x == '>'))) = true ∧
    (∃ t u : List Char,
      (Ui.createVinilCardHTML c1Vinil).data = t ++ c1Vinil.album.data ++ u) ∧
    (∃ t u : List Char,
      (Ui.createVinilDetailsHTML c1Vinil).data = t ++ c1Vinil.album.data ++ u) :=
  c1_escaping "<script>" c1Vinil

/-- C2, counterexample: the claim says the first occurrence of a
duplicated identifier wins.  With one artist-query record and one
album-query record sharing identifier 1 but with different contents, the
combined result keeps the second (album) record, not the first, because a
JavaScript `Map` keeps the last value set for a key. -/
theorem c2_counterexample :
    Api.buscarVinis (Except.ok [c2A]) (Except.ok [c2B]) = [c2B] ∧
      decide (c2B = c2A) = false := by
  constructor
  · rfl
  · rfl

/-- C2, amended: the combined search result is the concatenation (artist
results first) deduplicated by identifier, where identifiers keep the
position of their first occurrence but the record kept for each
identifier is its last occurrence in the concatenated sequence. -/
theorem c2_dedup_last_wins (ra rb : List Vinil) :
    Api.buscarVinis (Except.ok ra) (Except.ok rb) = DedupSpec.dedupeSpec (ra ++ rb) := by
  rw [Api.buscarVinis, Api.jsCatchEmpty, Api.jsCatchEmpty, DedupSpec.vinisUnicos_eq_spec]

/-- C2 witness: the amended statement at the counterexample pair. -/
theorem c2_dedup_last_wins_witness :
    Api.buscarVinis (Except.ok [c2A]) (Except.ok [c2B]) =
      DedupSpec.dedupeSpec ([c2A] ++ [c2B]) :=
  c2_dedup_last_wins [c2A] [c2B]

/-- C3: if record A is in the artist sub-query result and record B is in
the album sub-query result, and records with equal identifiers are equal
(both sub-queries draw from the same backend catalog), then the combined
result contains both A and B and its identifiers are pairwise distinct. -/
theorem c3_union_membership (ra rb : List Vinil) (A B : Vinil)
    (hA : A ∈ ra) (hB : B ∈ rb)
    (huniq : ∀ x ∈ ra ++ rb, ∀ y ∈ ra ++ rb, x.id = y.id → x = y) :
    A ∈ Api.buscarVinis (Except.ok ra) (Except.ok rb) ∧
    B ∈ Api.buscarVinis (Except.ok ra) (Except.ok rb) ∧
    ((Api.buscarVinis (Except.ok ra) (Except.ok rb)).map Vinil.id).Nodup := by
  have hres : Api.buscarVinis (Except.ok ra) (Except.ok rb) =
      DedupSpec.dedupeSpec (ra ++ rb) := c2_dedup_last_wins ra rb
  have hmem : ∀ C : Vinil, C ∈ ra ++ rb → C ∈ DedupSpec.dedupeSpec (ra ++ rb) := by
    intro C hC
    have hid : C.id ∈ (ra ++ rb).map Vinil.id := List.mem_map_of_mem Vinil.id hC
    obtain ⟨w, hw, hwl, hwid⟩ := DedupSpec.lastWith_mem (ra ++ rb) C.id hid
    have hwC : w = C := huniq w hwl C hC hwid
    rw [DedupSpec.dedupeSpec]
    exact List.mem_map.mpr ⟨C.id, (DedupSpec.mem_firstKeys _ C.id).mpr hid,
      by simp [DedupSpec.lastWithD, hw, hwC]⟩
  refine ⟨?_, ?_, ?_⟩
  · rw [hres]
    exact hmem A (List.mem_append.mpr (Or.inl hA))
  · rw [hres]
    exact hmem B (List.mem_append.mpr (Or.inr hB))
  · rw [hres, DedupSpec.map_id_dedupeSpec]
    exact DedupSpec.nodup_firstKeys _

/-- C3 witness: a term matching A by artist and B by title. -/
theorem c3_union_membership_witness :
    c3A ∈ Api.buscarVinis (Except.ok [c3A]) (Except.ok [c3B]) ∧
    c3B ∈ Api.buscarVinis (Except.ok [c3A]) (Except.ok [c3B]) ∧
    ((Api.buscarVinis (Except.ok [c3A]) (Except.ok [c3B])).map Vinil.id).Nodup :=
  c3_union_membership [c3A] [c3B] c3A c3B (List.mem_cons_self c3A [])
    (List.mem_cons_self c3B []) (by
      intro x hx y hy hid
      have hx2 : x = c3A ∨ x = c3B := by simpa using hx
      have hy2 : y = c3A ∨ y = c3B := by simpa using hy
      rcases hx2 with rfl | rfl <;> rcases hy2 with rfl | rfl <;>
        first
        | rfl
        | (exfalso; simp [c3A, c3B] at hid))

/-- C4, counterexample: the claim says a failed stats fetch leaves the
previously rendered stats content unchanged.  Starting from a panel
holding previously rendered stats, a failed `loadStats` leaves different
content (the loading placeholder written before the fetch). -/
theorem c4_counterexample :
    decide ((MainJs.loadStats (Except.error "Network error") c4Prior).content =
      c4Prior.content) = false := by
  decide

/-- C4, amended: when the statistics fetch fails the panel is left
showing the loading placeholder that `showStatsLoading` wrote when the
fetch began (replacing whatever was rendered before), an error
notification is shown, and the panel is not blank. -/
theorem c4_stats_failure (v : Ui.StatsView) (err : String) :
    (MainJs.loadStats (Except.error err) v).content = Ui.statsLoadingHTML ∧
    (MainJs.loadStats (Except.error err) v).notification =
      some "Não foi possível carregar as estatísticas." ∧
    0 < Ui.statsLoadingHTML.length := by
  refine ⟨rfl, rfl, by decide⟩

/-- C4 witness: the amended statement at the counterexample state. -/
theorem c4_stats_failure_witness :
    (MainJs.loadStats (Except.error "Network error") c4Prior).content =
      Ui.statsLoadingHTML ∧
    (MainJs.loadStats (Except.error "Network error") c4Prior).notification =
      some "Não foi possível carregar as estatísticas." ∧
    0 < Ui.statsLoadingHTML.length :=
  c4_stats_failure c4Prior "Network error"

/-- C5: a submission whose collected data has an empty required field, a
falsy year, or a year outside 1900..2025 (in particular 1899) is rejected
with a message and no create/update call; a submission whose collected
data has all required fields non-empty and a year within 1900..2025 (in
particular 2000) issues the create (no edit id) or update (edit id) call
with the collected data. -/
theorem c5_form_validation (editId : Option String) (f : MainJs.FormFields)
    (img : Option String) :
    (((MainJs.collectVinilData f img).artista = "" ∨
      (MainJs.collectVinilData f img).album = "" ∨
      (MainJs.collectVinilData f img).cor_prensagem = "" ∨
      (MainJs.collectVinilData f img).midia = "" ∨
      (MainJs.collectVinilData f img).ano = none ∨
      (MainJs.collectVinilData f img).ano = some 0 ∨
      MainJs.jsLtNum (MainJs.collectVinilData f img).ano 1900 = true ∨
      MainJs.jsGtNum (MainJs.collectVinilData f img).ano 2025 = true) →
      MainJs.isRejected (MainJs.handleFormSubmit editId f img) = true) ∧
    (∀ n : Int, (MainJs.collectVinilData f img).ano = some n → 1900 ≤ n → n ≤ 2025 →
      (MainJs.collectVinilData f img).artista ≠ "" →
      (MainJs.collectVinilData f img).album ≠ "" →
      (MainJs.collectVinilData f img).cor_prensagem ≠ "" →
      (MainJs.collectVinilData f img).midia ≠ "" →
      MainJs.handleFormSubmit editId f img =
        (match editId with
         | some i => MainJs.SubmitOutcome.updateCall i (MainJs.collectVinilData f img)
         | none => MainJs.SubmitOutcome.createCall (MainJs.collectVinilData f img))) := by
  constructor
  · intro h
    set d := MainJs.collectVinilData f img with hd
    by_cases hreq : (d.artista == "" || d.album == "" || d.cor_prensagem == "" ||
        !(MainJs.jsTruthyNum d.ano) || d.midia == "") = true
    · simp only [MainJs.handleFormSubmit, ← hd, hreq, if_true]
      rfl
    · rw [Bool.not_eq_true] at hreq
      have hart : d.artista ≠ "" := by
        intro he
        rw [he] at hreq
        simp at hreq
      have halb : d.album ≠ "" := by
        intro he
        rw [he] at hreq
        simp at hreq
      have hcor : d.cor_prensagem ≠ "" := by
        intro he
        rw [he] at hreq
        simp at hreq
      have hmid : d.midia ≠ "" := by
        intro he
        rw [he] at hreq
        simp at hreq
      have htru : MainJs.jsTruthyNum d.ano = true := by
        by_contra hf
        rw [Bool.not_eq_true] at hf
        rw [hf] at hreq
        simp at hreq
      have hrange : (MainJs.jsLtNum d.ano 1900 || MainJs.jsGtNum d.ano 2025) = true := by
        rcases h with h | h | h | h | h | h | h | h
        · exact absurd h hart
        · exact absurd h halb
        · exact absurd h hcor
        · exact absurd h hmid
        · rw [h] at htru
          simp [MainJs.jsTruthyNum] at htru
        · rw [h] at htru
          simp [MainJs.jsTruthyNum] at htru
        · simp [h]
        · simp [h]
      simp only [MainJs.handleFormSubmit, ← hd, hreq, Bool.false_eq_true, if_false,
        hrange, if_true]
      rfl
  · intro n hano h1900 h2025 hart halb hcor hmid
    set d := MainJs.collectVinilData f img with hd
    have htru : MainJs.jsTruthyNum d.ano = true := by
      rw [hano]
      simp only [MainJs.jsTruthyNum, bne_iff_ne, ne_eq, decide_eq_true_eq]
      omega
    have hreq : (d.artista == "" || d.album == "" || d.cor_prensagem == "" ||
        !(MainJs.jsTruthyNum d.ano) || d.midia == "") = false := by
      simp [hart, halb, hcor, htru, hmid]
    have hrange : (MainJs.jsLtNum d.ano 1900 || MainJs.jsGtNum d.ano 2025) = false := by
      rw [hano]
      simp only [MainJs.jsLtNum, MainJs.jsGtNum, Bool.or_eq_false_iff,
        decide_eq_false_iff_not]
      omega
    simp only [MainJs.handleFormSubmit, ← hd, hreq, Bool.false_eq_true, if_false, hrange]

/-- C5 witness: year 1899 rejected, year 2000 forwarded as a create call. -/
theorem c5_form_validation_witness :
    MainJs.isRejected (MainJs.handleFormSubmit none c5FormInvalida none) = true ∧
    MainJs.handleFormSubmit none c5FormValida none =
      MainJs.SubmitOutcome.createCall (MainJs.collectVinilData c5FormValida none) :=
  ⟨(c5_form_validation none c5FormInvalida none).1 (by
      right; right; right; right; right; right; left; decide),
   (c5_form_validation none c5FormValida none).2 2000 (by decide) (by decide) (by decide)
     (by decide) (by decide) (by decide) (by decide)⟩

/-- C6: a failed sub-query contributes nothing: the combined search
returns the other sub-query result (unchanged when its identifiers are
pairwise distinct) instead of aborting, and only both failing yields the
empty result. -/
theorem c6_subquery_degradation (msg msg2 : String) (l : List Vinil)
    (h : (l.map Vinil.id).Nodup) :
    Api.buscarVinis (Except.error msg) (Except.ok l) = l ∧
    Api.buscarVinis (Except.ok l) (Except.error msg) = l ∧
    Api.buscarVinis (Except.error msg) (Except.error msg2) = [] := by
  have hl : Api.vinisUnicos l = l := by
    rw [DedupSpec.vinisUnicos_eq_spec, DedupSpec.dedupeSpec_of_nodup l h]
  refine ⟨?_, ?_, rfl⟩
  · simpa [Api.buscarVinis, Api.jsCatchEmpty] using hl
  · simpa [Api.buscarVinis, Api.jsCatchEmpty] using hl

/-- C6 witness: one failing sub-query, two-record successful sub-query. -/
theorem c6_subquery_degradation_witness :
    Api.buscarVinis (Except.error "Falha de rede") (Except.ok [c3A, c3B]) = [c3A, c3B] ∧
    Api.buscarVinis (Except.ok [c3A, c3B]) (Except.error "Falha de rede") = [c3A, c3B] ∧
    Api.buscarVinis (Except.error "Falha de rede") (Except.error "Falha de rede") = [] :=
  c6_subquery_degradation "Falha de rede" "Falha de rede" [c3A, c3B] (by decide)

/-- C7: a 204 response is normalized to the empty object, a transport
failure rejects with its message, any non-2xx status rejects, and a
non-2xx response whose body carries no message rejects with the uniform
`Erro HTTP` message. -/
theorem c7_fetch_normalization (status : Nat) (body : Option Api.JsValue) (m : String) :
    Api.fetchAPI (Api.FetchOutcome.responded 204 body) = Except.ok (Api.JsValue.obj []) ∧
    Api.fetchAPI (Api.FetchOutcome.networkFailure m) = Except.error m ∧
    ((status < 200 ∨ 300 ≤ status) →
      Api.isErrorE (Api.fetchAPI (Api.FetchOutcome.responded status body)) = true) ∧
    ((status < 200 ∨ 300 ≤ status) → Api.messageOf body = none →
      Api.fetchAPI (Api.FetchOutcome.responded status body) =
        Except.error ("Erro HTTP: " ++ toString status)) := by
  refine ⟨?_, rfl, ?_, ?_⟩
  · simp [Api.fetchAPI]
  · intro h
    have hno : ¬(200 ≤ status ∧ status < 300) := by omega
    simp [Api.fetchAPI, hno, Api.isErrorE]
  · intro h hmsg
    have hno : ¬(200 ≤ status ∧ status < 300) := by omega
    simp [Api.fetchAPI, hno, hmsg, Api.jsOrMsg]

/-- C7 witness: the statement at status 404 with an unparsable body. -/
theorem c7_fetch_normalization_witness :
    Api.fetchAPI (Api.FetchOutcome.responded 204 none) = Except.ok (Api.JsValue.obj []) ∧
    Api.fetchAPI (Api.FetchOutcome.networkFailure "Failed to fetch") =
      Except.error "Failed to fetch" ∧
    ((404 < 200 ∨ 300 ≤ 404) →
      Api.isErrorE (Api.fetchAPI (Api.FetchOutcome.responded 404 none)) = true) ∧
    ((404 < 200 ∨ 300 ≤ 404) → Api.messageOf none = none →
      Api.fetchAPI (Api.FetchOutcome.responded 404 none) =
        Except.error ("Erro HTTP: " ++ toString 404)) :=
  c7_fetch_normalization 404 none "Failed to fetch"

/-- C8: rendering an absent or empty result list shows the no-results
state, renders zero cards, hides the loading element, and shows no error
(the notification is untouched). -/
theorem c8_empty_renders_no_results (g : Ui.GridView) :
    (Ui.renderVinisGrid none g).noResultsShown = true ∧
    (Ui.renderVinisGrid none g).cards = [] ∧
    (Ui.renderVinisGrid none g).loadingShown = false ∧
    (Ui.renderVinisGrid none g).notification = g.notification ∧
    (Ui.renderVinisGrid (some []) g).noResultsShown = true ∧
    (Ui.renderVinisGrid (some []) g).cards = [] ∧
    (Ui.renderVinisGrid (some []) g).loadingShown = false ∧
    (Ui.renderVinisGrid (some []) g).notification = g.notification := by
  refine ⟨rfl, rfl, rfl, rfl, rfl, rfl, rfl, rfl⟩

/-- C8 witness: the statement at a concrete prior grid state. -/
theorem c8_empty_renders_no_results_witness :
    (Ui.renderVinisGrid none g0).noResultsShown = true ∧
    (Ui.renderVinisGrid none g0).cards = [] ∧
    (Ui.renderVinisGrid none g0).loadingShown = false ∧
    (Ui.renderVinisGrid none g0).notification = g0.notification ∧
    (Ui.renderVinisGrid (some []) g0).noResultsShown = true ∧
    (Ui.renderVinisGrid (some []) g0).cards = [] ∧
    (Ui.renderVinisGrid (some []) g0).loadingShown = false ∧
    (Ui.renderVinisGrid (some []) g0).notification = g0.notification :=
  c8_empty_renders_no_results g0

/-- C9, counterexample: the claim says an identifier that is not a
positive number is rejected before any network call.  With identifiers
-1 and 2 the handler issues both record fetches, because the JavaScript
truthiness check lets negative numbers through. -/
theorem c9_counterexample :
    MainJs.compararPrensagens (some (-1)) (some 2) =
      MainJs.CompareOutcome.fetchBoth (-1) 2 := by
  rfl

/-- C9, amended: the handler rejects with a user-visible message, before
any network call, exactly when either identifier is missing (`NaN`) or
zero, or the two are equal; whenever both parse to nonzero numbers
(negative ones included) and differ, the two record fetches are issued. -/
theorem c9_compare_validation (a b : Option Int) (m n : Int) :
    ((MainJs.jsTruthyNum a = false ∨ MainJs.jsTruthyNum b = false ∨ a = b) →
      MainJs.isRejectedCompare (MainJs.compararPrensagens a b) = true) ∧
    (m ≠ 0 → n ≠ 0 → m ≠ n →
      MainJs.compararPrensagens (some m) (some n) =
        MainJs.CompareOutcome.fetchBoth m n) := by
  constructor
  · intro h
    by_cases ha : MainJs.jsTruthyNum a
    · by_cases hb : MainJs.jsTruthyNum b
      · have hab : a = b := by
          rcases h with h | h | h
          · rw [ha] at h; cases h
          · rw [hb] at h; cases h
          · exact h
        simp [MainJs.compararPrensagens, ha, hb, hab, MainJs.isRejectedCompare]
      · simp only [Bool.not_eq_true] at hb
        simp [MainJs.compararPrensagens, hb, MainJs.isRejectedCompare]
    · simp only [Bool.not_eq_true] at ha
      simp [MainJs.compararPrensagens, ha, MainJs.isRejectedCompare]
  · intro hm hn hmn
    simp [MainJs.compararPrensagens, MainJs.jsTruthyNum, hm, hn, hmn]

/-- C9 witness: equal identifiers rejected, distinct nonzero identifiers
fetched. -/
theorem c9_compare_validation_witness :
    ((MainJs.jsTruthyNum (some 5) = false ∨ MainJs.jsTruthyNum (some 5) = false ∨
        (some 5 : Option Int) = some 5) →
      MainJs.isRejectedCompare (MainJs.compararPrensagens (some 5) (some 5)) = true) ∧
    ((5 : Int) ≠ 0 → (9 : Int) ≠ 0 → (5 : Int) ≠ 9 →
      MainJs.compararPrensagens (some 5) (some 9) =
        MainJs.CompareOutcome.fetchBoth 5 9) :=
  c9_compare_validation (some 5) (some 5) 5 9

/-- C10: the difference map of the comparison result, its symmetry
(swapping the two records gives the same flags), reflexivity (comparing a
record with itself yields all-false flags), and correctness (each flag is
true exactly when the corresponding fields differ). -/
theorem c10_diferencas_properties (a b : Vinil) :
    (Api.compararPrensagens a b).diferencas = Api.diferencas a b ∧
    Api.diferencas a b = Api.diferencas b a ∧
    Api.diferencas a a =
      { artista := false, album := false, cor_prensagem := false,
        ano := false, selo := false, midia := false } ∧
    ((Api.diferencas a b).artista = true ↔ a.artista ≠ b.artista) ∧
    ((Api.diferencas a b).album = true ↔ a.album ≠ b.album) ∧
    ((Api.diferencas a b).cor_prensagem = true ↔ a.cor_prensagem ≠ b.cor_prensagem) ∧
    ((Api.diferencas a b).ano = true ↔ a.ano ≠ b.ano) ∧
    ((Api.diferencas a b).selo = true ↔ a.selo ≠ b.selo) ∧
    ((Api.diferencas a b).midia = true ↔ a.midia ≠ b.midia) := by
  refine ⟨rfl, ?_, ?_, ?_, ?_, ?_, ?_, ?_, ?_⟩ <;>
    simp [Api.diferencas, ne_comm]

/-- C10 witness: the statement at two concrete records. -/
theorem c10_diferencas_properties_witness :
    (Api.compararPrensagens c10A c10B).diferencas = Api.diferencas c10A c10B ∧
    Api.diferencas c10A c10B = Api.diferencas c10B c10A ∧
    Api.diferencas c10A c10A =
      { artista := false, album := false, cor_prensagem := false,
        ano := false, selo := false, midia := false } ∧
    ((Api.diferencas c10A c10B).artista = true ↔ c10A.artista ≠ c10B.artista) ∧
    ((Api.diferencas c10A c10B).album = true ↔ c10A.album ≠ c10B.album) ∧
    ((Api.diferencas c10A c10B).cor_prensagem = true ↔
      c10A.cor_prensagem ≠ c10B.cor_prensagem) ∧
    ((Api.diferencas c10A c10B).ano = true ↔ c10A.ano ≠ c10B.ano) ∧
    ((Api.diferencas c10A c10B).selo = true ↔ c10A.selo ≠ c10B.selo) ∧
    ((Api.diferencas c10A c10B).midia = true ↔ c10A.midia ≠ c10B.midia) :=
  c10_diferencas_properties c10A c10B
